import Mathlib

/-!
Verification of the Edge Webhook Gateway of bl1nk-stack-builder
(src/apps/bridge/src/index.ts, src/apps/bridge/src/map_payload.ts and the
signature module).  The TypeScript functions are shallowly embedded as Lean
definitions; JavaScript runtime behaviour (truthiness, property access on
null/undefined throwing TypeError, template-literal coercion, `a || b`) is
modelled explicitly on a small JSON value type.  Cryptographic primitives
(HMAC-SHA256) are abstracted as function parameters; wall-clock time and
randomness are explicit parameters.
-/

set_option autoImplicit false

namespace Bridge

/-- JSON values as seen by the worker, plus `undefined` for JavaScript's
`undefined` (the result of reading an absent property). `JSON.parse`
never produces `undefined`. Numbers are modelled as integers; no claim
depends on fractional numeric values. -/
inductive Json where
  | undefined : Json
  | null : Json
  | bool (b : Bool) : Json
  | num (n : Int) : Json
  | str (s : String) : Json
  | arr (elems : List Json) : Json
  | obj (fields : List (String × Json)) : Json

/-- JavaScript truthiness: `undefined`, `null`, `false`, `0` and `""` are
falsy; every array and object is truthy. -/
def Json.truthy : Json → Bool
  | .undefined => false
  | .null => false
  | .bool b => b
  | .num n => n != 0
  | .str s => s != ""
  | .arr _ => true
  | .obj _ => true

/-- JavaScript `a || b`. -/
def jsOr (a b : Json) : Json := if a.truthy then a else b

/-- Property read `j.k` on a value already known to be non-nullish, and the
optional-chaining read `j?.k`: both yield `undefined` for absent keys and
for non-object receivers, and `j?.k` yields `undefined` (without throwing)
when `j` is null or undefined. -/
def Json.optGet (j : Json) (k : String) : Json :=
  match j with
  | .obj fields => (fields.lookup k).getD .undefined
  | _ => .undefined

/-- Plain property read `j.k`: throws `TypeError` when the receiver is
`null` or `undefined`, otherwise behaves like `optGet`. -/
def Json.getp (j : Json) (k : String) : Except String Json :=
  match j with
  | .undefined => .error "TypeError"
  | .null => .error "TypeError"
  | _ => .ok (j.optGet k)

/-- Whether a value is `null` or `undefined` (property access throws). -/
def Json.isNullish : Json → Bool
  | .undefined => true
  | .null => true
  | _ => false

def Json.isObj : Json → Bool
  | .obj _ => true
  | _ => false

mutual
/-- Template-literal / `String(·)` coercion.  Arrays join their elements
with commas (null and undefined elements become empty, as in
`Array.prototype.join`), objects render as the usual tag. -/
def Json.jsToString : Json → String
  | .undefined => "undefined"
  | .null => "null"
  | .bool b => if b then "true" else "false"
  | .num n => toString n
  | .str s => s
  | .obj _ => "[object Object]"
  | .arr xs => jsArrToString xs

/-- Array contents under `String(·)`: elements joined with commas. -/
def jsArrToString : List Json → String
  | [] => ""
  | [x] => jsArrElem x
  | x :: y :: rest => jsArrElem x ++ "," ++ jsArrToString (y :: rest)

/-- One array element under `String(·)`: nullish elements become empty,
all others render as scalars or nested joined arrays. -/
def jsArrElem : Json → String
  | .undefined => ""
  | .null => ""
  | .bool b => if b then "true" else "false"
  | .num n => toString n
  | .str s => s
  | .obj _ => "[object Object]"
  | .arr xs => jsArrToString xs
end

/-- One array element under `join`: nullish elements become empty strings. -/
def jsElemToString : Json → String
  | .undefined => ""
  | .null => ""
  | j => Json.jsToString j

/-- Model of JavaScript `String.prototype.toLowerCase` for the ASCII
source names the dispatch compares against. -/
def jsToLowerCase (s : String) : String := ⟨s.data.map Char.toLower⟩

/-- The value is a non-empty string — the sense in which the specification
requires `external_id`, `user_id` and `message` to be "non-empty". -/
def nonEmptyStr : Json → Bool
  | .str s => s != ""
  | _ => false

/-- ASCII whitespace recognised by the model of `String.prototype.trim`
(the inputs appearing in the claims contain only spaces). -/
def isJsWhitespace (c : Char) : Bool :=
  c = ' ' || c = '\t' || c = '\n' || c = '\r'

/-- Model of JavaScript `String.prototype.trim`. -/
def jsTrim (s : String) : String :=
  ⟨((s.data.dropWhile isJsWhitespace).reverse.dropWhile isJsWhitespace).reverse⟩

/-- Characters matched by the class `[A-Z0-9]` in the Slack mention regex. -/
def isUpperOrDigit (c : Char) : Bool :=
  ('A' ≤ c && c ≤ 'Z') || ('0' ≤ c && c ≤ '9')

/-- One pass of the global regex replace of pattern `<@[A-Z0-9]+>` by the
empty string: on a match the scan resumes after the closing bracket, on a
non-match it advances one character, exactly as the JavaScript regex engine
does for this pattern (the class cannot match the closing bracket, so
greedy backtracking never helps).  The fuel argument is an upper bound on
the number of scan steps; the input length suffices. -/
def stripMentionsAux : Nat → List Char → List Char
  | 0, cs => cs
  | _ + 1, [] => []
  | fuel + 1, c :: cs =>
    if c = '<' then
      match cs with
      | '@' :: rest =>
        let run := rest.takeWhile isUpperOrDigit
        let rem := rest.dropWhile isUpperOrDigit
        match run, rem with
        | _ :: _, '>' :: after => stripMentionsAux fuel after
        | _, _ => c :: stripMentionsAux fuel cs
      | _ => c :: stripMentionsAux fuel cs
    else
      c :: stripMentionsAux fuel cs

/-- Model of `message.replace(/<@[A-Z0-9]+>/g, '')` from `mapSlackPayload`. -/
def stripSlackMentions (s : String) : String :=
  ⟨stripMentionsAux s.data.length s.data⟩

/-- Fold of a digit run into a natural number. -/
def digitsToNat (cs : List Char) : Nat :=
  cs.foldl (fun a c => a * 10 + (c.toNat - 48)) 0

/-- Model of JavaScript `parseInt(s)` (radix 10): skip leading whitespace,
optional sign, then the maximal leading digit run; `none` models `NaN`. -/
def jsParseInt (s : String) : Option Int :=
  let cs := s.data.dropWhile isJsWhitespace
  match cs with
  | '-' :: rest =>
    let ds := rest.takeWhile Char.isDigit
    if ds.isEmpty then none else some (-(digitsToNat ds : Int))
  | '+' :: rest =>
    let ds := rest.takeWhile Char.isDigit
    if ds.isEmpty then none else some (digitsToNat ds : Int)
  | _ =>
    let ds := cs.takeWhile Char.isDigit
    if ds.isEmpty then none else some (digitsToNat ds : Int)

/-- Value semantics of `crypto.timingSafeEqual` applied to the UTF-8
encodings of two strings: the encodings are equal exactly when the
character sequences are (UTF-8 encoding is injective), so the comparison
is modelled on the character sequences.  The constant-time execution
property itself is a timing property outside the embedding. -/
def timingSafeEqual (a b : List Char) : Bool := a == b

/-- Model of `new TextEncoder().encode(s)` up to the injective UTF-8
encoding: the character sequence of the string. -/
def encodeText (s : String) : List Char := s.data

/-- Shallow embedding of `verifySlackSignature`
(src/apps/bridge/src/index.ts, lines 454–493; the module in
src/unnamed/part_001 has the same observable logic).  `hmacHex` abstracts
hex-encoded HMAC-SHA256 with a given secret over a given message; `now` is
the current Unix time in seconds.  `headers.get` results are `Option`s;
the code's `!signature || !timestamp` guard also rejects empty strings.
A timestamp that parses to `NaN` makes the `Math.abs(now - ts) > 300`
comparison false, so verification proceeds in that case, as in the code. -/
def verifySlackSignature (hmacHex : String → String → String)
    (body : String) (signature timestamp : Option String)
    (secret : String) (now : Int) : Bool :=
  match signature, timestamp with
  | some sig, some tsStr =>
    if sig = "" ∨ tsStr = "" then false
    else
      let tooOld : Bool :=
        match jsParseInt tsStr with
        | some ts => decide ((now - ts).natAbs > 300)
        | none => false
      if tooOld then false
      else
        let expected := "v0=" ++ hmacHex secret ("v0:" ++ tsStr ++ ":" ++ body)
        timingSafeEqual (encodeText sig) (encodeText expected)
  | _, _ => false

theorem append_ne_empty_left (a b : String) (h : a.data ≠ []) : a ++ b ≠ "" := by
  intro hab
  apply h
  have : (a ++ b).data = a.data ++ b.data := String.data_append a b
  rw [hab] at this
  have : a.data ++ b.data = [] := this.symm
  exact List.append_eq_nil.mp this |>.1

/-- C1: for the Slack signature scheme, a request whose timestamp differs
from the current time by more than 300 seconds is rejected whatever the
signature; within the window, the signature
`"v0=" ++ hex(HMAC(secret, "v0:" ++ ts ++ ":" ++ body))` is accepted; and
any other signature — in particular one with a byte flipped — is rejected
by the timing-safe comparison. -/
theorem slack_signature_verification (hmacHex : String → String → String)
    (body secret tsStr sig : String) (ts now : Int)
    (hparse : jsParseInt tsStr = some ts) (hts : tsStr ≠ "") :
    ((now - ts).natAbs > 300 →
      verifySlackSignature hmacHex body (some sig) (some tsStr) secret now = false)
    ∧ ((now - ts).natAbs ≤ 300 →
      verifySlackSignature hmacHex body
        (some ("v0=" ++ hmacHex secret ("v0:" ++ tsStr ++ ":" ++ body)))
        (some tsStr) secret now = true)
    ∧ ((now - ts).natAbs ≤ 300 →
        sig ≠ "v0=" ++ hmacHex secret ("v0:" ++ tsStr ++ ":" ++ body) →
      verifySlackSignature hmacHex body (some sig) (some tsStr) secret now = false) := by
  refine ⟨?_, ?_, ?_⟩
  · intro hold
    by_cases hsig : sig = ""
    · simp [verifySlackSignature, hsig]
    · simp [verifySlackSignature, hparse, hsig, hts, decide_eq_true hold]
  · intro hfresh
    have hne : ("v0=" ++ hmacHex secret ("v0:" ++ tsStr ++ ":" ++ body)) ≠ "" :=
      append_ne_empty_left _ _ (by decide)
    have h300 : ¬ ((now - ts).natAbs > 300) := Nat.not_lt.mpr hfresh
    simp [verifySlackSignature, hparse, hne, hts, decide_eq_false h300,
      timingSafeEqual, encodeText]
  · intro hfresh hflip
    have h300 : ¬ ((now - ts).natAbs > 300) := Nat.not_lt.mpr hfresh
    have hdata : sig.data ≠ ("v0=" ++ hmacHex secret ("v0:" ++ tsStr ++ ":" ++ body)).data := by
      intro h
      exact hflip (congrArg String.mk h)
    by_cases hsig : sig = ""
    · simp [verifySlackSignature, hsig]
    · simp [verifySlackSignature, hparse, hsig, hts, decide_eq_false h300,
        timingSafeEqual, encodeText, beq_iff_eq]
      intro h
      exact hdata (h.trans
        (String.data_append "v0=" (hmacHex secret ("v0:" ++ tsStr ++ ":" ++ body))).symm)

/-- C1 witness: concrete accept within the window. -/
theorem slack_signature_verification_witness :
    jsParseInt "100" = some 100 ∧ ("100" : String) ≠ "" ∧
    verifySlackSignature (fun _ _ => "aa") "b" (some "v0=aa") (some "100") "s" 100 = true :=
  ⟨by decide, by decide,
    (slack_signature_verification (fun _ _ => "aa") "b" "s" "100" "v0=aa" 100 100
      (by decide) (by decide)).2.1 (by decide)⟩

/-- Rate limit record persisted in the KV store (interface RateLimitInfo). -/
structure RateLimitInfo where
  requests : Nat
  windowStart : Nat
  maxRequests : Nat
  windowMinutes : Nat
deriving DecidableEq

def RATE_LIMIT_REQUESTS_PER_MINUTE : Nat := 100

def RATE_LIMIT_WINDOW_MINUTES : Nat := 1

/-- Window length in milliseconds, as computed inside `checkRateLimit`. -/
def windowMs : Nat := RATE_LIMIT_WINDOW_MINUTES * 60 * 1000

/-- Shallow embedding of `checkRateLimit` (index.ts, lines 414–449).  The
KV `get` and `put` are modelled by their outcomes (`getResult`, `putOk`);
`now` is `Date.now()` in milliseconds.  The whole body runs inside one
`try` whose `catch` rethrows every failure — a store error as well as the
inner `throw new Error('Rate limit exceeded')` — as the single error
`"Rate limit check failed"`.  On success the persisted record is returned. -/
def checkRateLimit (getResult : Except Unit (Option RateLimitInfo))
    (putOk : Bool) (now : Nat) : Except String RateLimitInfo :=
  match getResult with
  | .error _ => .error "Rate limit check failed"
  | .ok stored =>
    let windowStart := now / windowMs * windowMs
    let fresh : RateLimitInfo :=
      { requests := 1, windowStart := windowStart,
        maxRequests := RATE_LIMIT_REQUESTS_PER_MINUTE,
        windowMinutes := RATE_LIMIT_WINDOW_MINUTES }
    match stored with
    | none => if putOk then .ok fresh else .error "Rate limit check failed"
    | some s =>
      if s.windowStart ≠ windowStart then
        if putOk then .ok fresh else .error "Rate limit check failed"
      else if s.requests ≥ s.maxRequests then
        .error "Rate limit check failed"
      else if putOk then .ok { s with requests := s.requests + 1 }
      else .error "Rate limit check failed"

/-- The error envelope built by `handleError` (index.ts, lines 539–552):
always the generic InternalServerError body, whatever the thrown error. -/
structure ErrorResponse where
  error : String
  message : String
  trace_id : String
deriving DecidableEq

def handleError (traceId : String) : ErrorResponse :=
  { error := "InternalServerError", message := "An unexpected error occurred",
    trace_id := traceId }

/-- Observable shape of a gateway HTTP response: the status code, the
body's `error` field when the body is an error envelope, and the body's
`trace_id` field when the body carries one (`none` when absent).  CORS
headers are attached uniformly to every response and carry no per-request
information, so they are not modelled. -/
structure GwResponse where
  status : Nat
  errorField : Option String
  traceField : Option String
deriving DecidableEq

/-- The response produced by the top-level `catch` in `fetch`: status 500
with `handleError`'s envelope. -/
def handleErrorResponse (traceId : String) : GwResponse :=
  { status := 500, errorField := some (handleError traceId).error,
    traceField := some (handleError traceId).trace_id }

/-- The 404 envelope for unmatched routes (handleRoute). -/
def notFoundResponse (traceId : String) : GwResponse :=
  { status := 404, errorField := some "NotFound", traceField := some traceId }

/-- The 405 envelope for non-POST webhook requests (handleWebhook). -/
def methodNotAllowedResponse (traceId : String) : GwResponse :=
  { status := 405, errorField := some "MethodNotAllowed", traceField := some traceId }

/-- The 401 envelope for failed signature verification (handleWebhook). -/
def unauthorizedResponse (traceId : String) : GwResponse :=
  { status := 401, errorField := some "Unauthorized", traceField := some traceId }

/-- The 503 envelope for downstream transport failure (forwardToCore). -/
def serviceUnavailableResponse (traceId : String) : GwResponse :=
  { status := 503, errorField := some "ServiceUnavailable", traceField := some traceId }

/-- The health response (handleHealth, index.ts lines 344–356): its body
has only `status`, `timestamp`, `service` and `version` fields and no
trace id; the function does not even receive the request context. -/
def handleHealth : GwResponse :=
  { status := 200, errorField := none, traceField := none }

/-- The CORS preflight response (handleCors, index.ts lines 162–172):
status 204 with a null body; only CORS headers (with the request's Origin
echoed) are attached, no trace id. -/
def handleCors : GwResponse :=
  { status := 204, errorField := none, traceField := none }

/-- Shallow embedding of `forwardToCore`'s response handling: a downstream
response (`some r`) is relayed with its own status and body, only CORS
headers re-applied — no trace id is added; on timeout or transport failure
(`none`) the 503 envelope carrying the trace id is returned. -/
def forwardToCore (downstream : Option GwResponse) (traceId : String) : GwResponse :=
  match downstream with
  | some r => r
  | none => serviceUnavailableResponse traceId

/-- The response observable when the rate-limit stage rejects: in `fetch`,
`checkRateLimit` runs with no surrounding catch, so its error reaches the
single top-level boundary and becomes `handleError`'s envelope.  `none`
means the request was admitted and the pipeline continues. -/
def rateLimitResponse (getResult : Except Unit (Option RateLimitInfo))
    (putOk : Bool) (now : Nat) (traceId : String) : Option GwResponse :=
  match checkRateLimit getResult putOk now with
  | .error _ => some (handleErrorResponse traceId)
  | .ok _ => none

/-- C2 fails on the code: the over-limit request is rejected, but the
response is the generic InternalServerError envelope with status 500 —
the string "RateLimitExceeded" appears nowhere in the gateway — because
`checkRateLimit` rethrows the rejection as 'Rate limit check failed' and
the top-level handler maps every error to InternalServerError. -/
theorem rate_limit_response_counterexample :
    rateLimitResponse (.ok (some ⟨100, 0, 100, 1⟩)) true 30000 "tr_1"
        = some ⟨500, some "InternalServerError", some "tr_1"⟩
    ∧ (rateLimitResponse (.ok (some ⟨100, 0, 100, 1⟩)) true 30000 "tr_1").map
        GwResponse.errorField ≠ some (some "RateLimitExceeded") := by
  decide

/-- C2 amended: with `maxRequests = N`, the N-th request of a window is
admitted and the persisted count reaches N; the (N+1)-th request of the
same window is rejected, but the response is the generic 500
InternalServerError envelope rather than a RateLimitExceeded error; and a
request in a later window is admitted with a fresh record whose count
is 1. -/
theorem rate_limit_window_behavior
    (s : RateLimitInfo) (now later : Nat) (traceId : String)
    (hwin : s.windowStart = now / windowMs * windowMs) :
    (s.requests + 1 = s.maxRequests →
      checkRateLimit (.ok (some s)) true now = .ok { s with requests := s.maxRequests })
    ∧ (s.requests = s.maxRequests →
      checkRateLimit (.ok (some s)) true now = .error "Rate limit check failed"
      ∧ rateLimitResponse (.ok (some s)) true now traceId
          = some ⟨500, some "InternalServerError", some traceId⟩)
    ∧ (later / windowMs * windowMs ≠ s.windowStart →
      checkRateLimit (.ok (some s)) true later
        = .ok ⟨1, later / windowMs * windowMs, RATE_LIMIT_REQUESTS_PER_MINUTE,
            RATE_LIMIT_WINDOW_MINUTES⟩) := by
  refine ⟨?_, ?_, ?_⟩
  · intro hN
    have hlt : ¬ (s.requests ≥ s.maxRequests) := by omega
    simp [checkRateLimit, ← hwin, hlt, hN]
  · intro hN
    have hge : s.requests ≥ s.maxRequests := by omega
    constructor
    · simp [checkRateLimit, ← hwin, hge]
    · simp [rateLimitResponse, checkRateLimit, ← hwin, hge,
        handleErrorResponse, handleError]
  · intro hdiff
    simp [checkRateLimit, Ne.symm hdiff]

/-- C2 witness: N-th request admitted, (N+1)-th rejected generically,
fresh window readmitted with count 1. -/
theorem rate_limit_window_behavior_witness :
    checkRateLimit (.ok (some ⟨99, 0, 100, 1⟩)) true 30000 = .ok ⟨100, 0, 100, 1⟩
    ∧ checkRateLimit (.ok (some ⟨100, 0, 100, 1⟩)) true 30000
        = .error "Rate limit check failed"
    ∧ checkRateLimit (.ok (some ⟨100, 0, 100, 1⟩)) true 90000 = .ok ⟨1, 60000, 100, 1⟩ :=
  ⟨(rate_limit_window_behavior ⟨99, 0, 100, 1⟩ 30000 90000 "tr" (by decide)).1 (by decide),
   ((rate_limit_window_behavior ⟨100, 0, 100, 1⟩ 30000 90000 "tr" (by decide)).2.1
      (by decide)).1,
   (rate_limit_window_behavior ⟨100, 0, 100, 1⟩ 30000 90000 "tr" (by decide)).2.2
      (by decide)⟩

/-- C9: the rate-limit stage fails closed and conflates its outcomes: a
failed KV get, a failed KV put and a genuine over-limit rejection all
surface as the identical error "Rate limit check failed", so the request
is rejected whenever the store is unavailable, and at the error boundary
an over-limit rejection is indistinguishable from a store failure. -/
theorem rate_limit_error_conflation
    (s : RateLimitInfo) (putOk : Bool) (now : Nat)
    (hwin : s.windowStart = now / windowMs * windowMs)
    (hover : s.maxRequests ≤ s.requests) :
    checkRateLimit (.error ()) putOk now = .error "Rate limit check failed"
    ∧ checkRateLimit (.ok none) false now = .error "Rate limit check failed"
    ∧ checkRateLimit (.ok (some s)) putOk now = .error "Rate limit check failed"
    ∧ checkRateLimit (.ok (some s)) putOk now = checkRateLimit (.error ()) putOk now := by
  have hge : s.requests ≥ s.maxRequests := hover
  refine ⟨rfl, by simp [checkRateLimit], ?_, ?_⟩
  · simp [checkRateLimit, ← hwin, hge]
  · simp [checkRateLimit, ← hwin, hge]

/-- C9 witness: concrete over-limit record and failed store. -/
theorem rate_limit_error_conflation_witness :
    checkRateLimit (.error ()) false 30000 = .error "Rate limit check failed"
    ∧ checkRateLimit (.ok (some ⟨100, 0, 100, 1⟩)) false 30000
        = checkRateLimit (.error ()) false 30000 :=
  ⟨(rate_limit_error_conflation ⟨100, 0, 100, 1⟩ false 30000 (by decide) (by decide)).1,
   (rate_limit_error_conflation ⟨100, 0, 100, 1⟩ false 30000 (by decide) (by decide)).2.2.2⟩

def MAX_PAYLOAD_SIZE : Nat := 10 * 1024 * 1024

/-- The request context built once per request (interface RequestContext;
the URL and header map are carried by the surrounding parameters). -/
structure RequestContext where
  method : String
  body : String
  traceId : String
  source : String
deriving DecidableEq

/-- Shallow embedding of `determineSource` (index.ts, lines 148–157). -/
def determineSource (pathSegments : List String) : String :=
  if pathSegments.length < 2 then "unknown"
  else
    match pathSegments with
    | "webhook" :: s :: _ => s
    | _ => "unknown"

/-- Shallow embedding of `createRequestContext` (index.ts, lines 116–143).
Returns the thrown error or the built context, paired with whether the
body stream was read (`request.text()` reached).  The `content-length`
check uses JavaScript `parseInt`; a missing or empty header, or one
parsing to NaN, skips the size check (NaN comparisons are false). -/
def createRequestContext (method : String) (contentLength : Option String)
    (bodyText : String) (traceId : String) (pathSegments : List String) :
    Except String RequestContext × Bool :=
  if method = "GET" ∨ method = "HEAD" then
    (.ok ⟨method, "", traceId, determineSource pathSegments⟩, false)
  else
    let oversized : Bool :=
      match contentLength with
      | none => false
      | some cl =>
        if cl = "" then false
        else
          match jsParseInt cl with
          | some n => decide (n > (MAX_PAYLOAD_SIZE : Int))
          | none => false
    if oversized then (.error "Payload too large", false)
    else (.ok ⟨method, bodyText, traceId, determineSource pathSegments⟩, true)

/-- The response observable when context construction throws: the error
propagates to the top-level catch and becomes `handleError`'s envelope;
`none` means construction succeeded. -/
def contextStageResponse (method : String) (contentLength : Option String)
    (bodyText : String) (traceId : String) (pathSegments : List String) :
    Option GwResponse :=
  match (createRequestContext method contentLength bodyText traceId pathSegments).1 with
  | .error _ => some (handleErrorResponse traceId)
  | .ok _ => none

/-- C3 fails on the code in its error-kind part: the oversized request is
rejected before the body is read, but the response is the generic 500
InternalServerError envelope — the string "PayloadTooLarge" appears
nowhere in the gateway. -/
theorem payload_too_large_counterexample :
    contextStageResponse "POST" (some "10485761") "x" "tr_2" ["webhook", "slack"]
        = some ⟨500, some "InternalServerError", some "tr_2"⟩
    ∧ (contextStageResponse "POST" (some "10485761") "x" "tr_2" ["webhook", "slack"]).map
        GwResponse.errorField ≠ some (some "PayloadTooLarge")
    ∧ (createRequestContext "POST" (some "10485761") "x" "tr_2" ["webhook", "slack"]).2
        = false := by
  decide

/-- C3 amended: a non-GET/non-HEAD request whose declared content length
parses to more than the 10 MiB ceiling is rejected without the body being
read, and the response is the generic 500 InternalServerError envelope
(not a PayloadTooLarge error). -/
theorem payload_too_large_rejection (method cl bodyText traceId : String)
    (segs : List String) (n : Int)
    (hm1 : method ≠ "GET") (hm2 : method ≠ "HEAD") (hcl : cl ≠ "")
    (hparse : jsParseInt cl = some n) (hbig : n > (MAX_PAYLOAD_SIZE : Int)) :
    createRequestContext method (some cl) bodyText traceId segs
        = (.error "Payload too large", false)
    ∧ contextStageResponse method (some cl) bodyText traceId segs
        = some ⟨500, some "InternalServerError", some traceId⟩ := by
  constructor
  · simp [createRequestContext, hm1, hm2, hcl, hparse, decide_eq_true hbig]
  · simp [contextStageResponse, createRequestContext, hm1, hm2, hcl, hparse,
      decide_eq_true hbig, handleErrorResponse, handleError]

/-- C3 witness: concrete oversized POST. -/
theorem payload_too_large_rejection_witness :
    createRequestContext "POST" (some "10485761") "x" "tr_2" ["webhook", "slack"]
        = (.error "Payload too large", false) :=
  (payload_too_large_rejection "POST" "10485761" "x" "tr_2" ["webhook", "slack"]
    10485761 (by decide) (by decide) (by decide) (by decide) (by decide)).1

/-- C6 fails on the code: the health response and the CORS preflight
response carry no trace id at all — `handleHealth` does not even receive
the request context, and `handleCors` returns a null body with only CORS
headers. -/
theorem trace_id_counterexample :
    handleHealth.traceField = none ∧ handleCors.traceField = none := by
  decide

/-- C6 amended: every error envelope built by the gateway carries the
request's trace id, but the health response, the CORS preflight response
and a relayed downstream response do not receive one (a relayed response
is passed through unchanged apart from CORS headers). -/
theorem trace_id_in_responses (traceId : String) (r : GwResponse) :
    (handleErrorResponse traceId).traceField = some traceId
    ∧ (notFoundResponse traceId).traceField = some traceId
    ∧ (methodNotAllowedResponse traceId).traceField = some traceId
    ∧ (unauthorizedResponse traceId).traceField = some traceId
    ∧ (serviceUnavailableResponse traceId).traceField = some traceId
    ∧ forwardToCore (some r) traceId = r
    ∧ forwardToCore none traceId = serviceUnavailableResponse traceId
    ∧ handleHealth.traceField = none
    ∧ handleCors.traceField = none := by
  refine ⟨rfl, rfl, rfl, rfl, rfl, rfl, rfl, rfl, rfl⟩

/-- The canonical payload (map_payload.ts, StandardWebhookPayload).
Fields hold the JavaScript values the mappers store in them.  The
`metadata` record (raw-payload echo, context tag, header echoes, wall
clock timestamps) is not modelled: no claim refers to it, and its
construction performs no property access that can throw beyond those
already performed for the fields below — except the Slack date
formatting, which is modelled via `dateValid` in `mapSlackPayload`. -/
structure StandardWebhookPayload where
  source : String
  external_id : Json
  user_id : Json
  workspace_id : Json
  message : Json

/-- JS `x.length > 0` for the receivers relevant here: arrays and strings
have a numeric length; any other non-nullish receiver gives
`undefined > 0`, which is false. -/
def Json.lengthPos : Json → Bool
  | .arr xs => xs.length != 0
  | .str s => s.length != 0
  | _ => false

/-- `Array.prototype.join` with a separator; nullish elements render as
empty strings. -/
def jsJoin (sep : String) : List Json → String
  | [] => ""
  | [x] => jsElemToString x
  | x :: y :: rest => jsElemToString x ++ sep ++ jsJoin sep (y :: rest)

/-- Shallow embedding of `generateExternalId` (map_payload.ts, lines
244–248); wall clock and random suffix are explicit parameters. -/
def generateExternalId (source : String) (nowMs : Nat) (rand : String) : String :=
  source ++ "_" ++ toString nowMs ++ "_" ++ rand

/-- Shallow embedding of `mapPoePayload` (map_payload.ts, lines 53–79). -/
def mapPoePayload (payload : Json) (nowMs : Nat) (rand : String) :
    Except String StandardWebhookPayload := do
  let query ← payload.getp "query"
  let userId ← payload.getp "user_id"
  if !query.truthy || !userId.truthy then
    throw "Invalid Poe payload: missing query or user_id"
  let messageId ← payload.getp "message_id"
  let queryId ← payload.getp "query_id"
  let msgField ← payload.getp "message"
  let wsid ← payload.getp "workspace_id"
  let externalId := jsOr messageId (jsOr queryId (.str (generateExternalId "poe" nowMs rand)))
  let message := jsOr query (jsOr msgField (.str ""))
  return { source := "poe", external_id := externalId, user_id := userId,
           workspace_id := jsOr wsid .null, message := message }

/-- Shallow embedding of `mapManusPayload` (map_payload.ts, lines 84–111). -/
def mapManusPayload (payload : Json) (nowMs : Nat) (rand : String) :
    Except String StandardWebhookPayload := do
  let content ← payload.getp "content"
  let request ← payload.getp "request"
  if !content.truthy && !request.truthy then
    throw "Invalid Manus payload: missing content or request"
  let requestId ← payload.getp "request_id"
  let idField ← payload.getp "id"
  let userId ← payload.getp "user_id"
  let wsid ← payload.getp "workspace_id"
  let externalId := jsOr requestId (jsOr idField (.str (generateExternalId "manus" nowMs rand)))
  let message := jsOr content (jsOr request (.str ""))
  return { source := "manus", external_id := externalId,
           user_id := jsOr userId (.str "unknown"),
           workspace_id := jsOr wsid .null, message := message }

/-- Shallow embedding of `mapSlackPayload` (map_payload.ts, lines
116–163).  `dateValid ts` abstracts whether
`new Date(parseFloat(String(ts)) * 1000).toISOString()` succeeds for the
`event.ts` value (floating-point parsing is outside the embedding); the
metadata construction throws RangeError when it does not.  A truthy
non-string `event.text` under an app-mention event makes
`message.replace` throw a TypeError. -/
def mapSlackPayload (dateValid : Json → Bool) (payload : Json) :
    Except String StandardWebhookPayload := do
  let event ← payload.getp "event"
  if !event.truthy then throw "Invalid Slack payload: missing event"
  let teamId ← payload.getp "team_id"
  let userId ← event.getp "user"
  let channelId ← event.getp "channel"
  let messageTs ← event.getp "ts"
  let etype ← event.getp "type"
  let text ← event.getp "text"
  let message0 := jsOr text (.str "")
  let isMention := match etype with | .str t => t == "app_mention" | _ => false
  let message ←
    if isMention then
      match message0 with
      | .str t => pure (Json.str (jsTrim (stripSlackMentions t)))
      | _ => throw "TypeError"
    else pure message0
  if !message.truthy then throw "Invalid Slack payload: empty message"
  let externalId :=
    teamId.jsToString ++ "-" ++ channelId.jsToString ++ "-" ++ messageTs.jsToString
  if !dateValid messageTs then throw "RangeError"
  return { source := "slack", external_id := .str externalId, user_id := userId,
           workspace_id := teamId, message := message }

/-- Model of `commits.map(c => c.message)`: the element accesses happen
left to right and a nullish element makes the access throw a TypeError. -/
def getCommitMessages : List Json → Except String (List Json)
  | [] => .ok []
  | c :: rest => do
    let m ← c.getp "message"
    let ms ← getCommitMessages rest
    pure (m :: ms)

/-- Shallow embedding of `mapGitHubPayload` (map_payload.ts, lines
168–232).  Plain property reads on values already known to be truthy
(hence non-nullish) are written with `optGet`; the reads on `repository`
use `getp` because `repository` may be nullish, in which case JavaScript
throws a TypeError.  String concatenations are written right-nested;
concatenation is associative so the value is that of the source's
template literals.  The metadata construction repeats the
`repository.full_name` access performed in every branch and adds no
further throwing access. -/
def mapGitHubPayload (payload : Json) (nowMs : Nat) :
    Except String StandardWebhookPayload := do
  let action ← payload.getp "action"
  let repository ← payload.getp "repository"
  let installation ← payload.getp "installation"
  let pr ← payload.getp "pull_request"
  let issue ← payload.getp "issue"
  let commits ← payload.getp "commits"
  let ref ← payload.getp "ref"
  let fields ←
    if pr.truthy then do
      let message := "PR: " ++ ((pr.optGet "title").jsToString
          ++ ("\n\n" ++ (jsOr (pr.optGet "body") (.str "")).jsToString))
      let fullName ← repository.getp "full_name"
      let externalId := "pr_" ++ (fullName.jsToString ++ ("_"
          ++ ((pr.optGet "number").jsToString ++ ("_" ++ action.jsToString))))
      let userId := jsOr ((pr.optGet "user").optGet "login") (.str "unknown")
      pure (message, externalId, userId)
    else if issue.truthy then do
      let message := "Issue: " ++ ((issue.optGet "title").jsToString
          ++ ("\n\n" ++ (jsOr (issue.optGet "body") (.str "")).jsToString))
      let fullName ← repository.getp "full_name"
      let externalId := "issue_" ++ (fullName.jsToString ++ ("_"
          ++ ((issue.optGet "number").jsToString ++ ("_" ++ action.jsToString))))
      let userId := jsOr ((issue.optGet "user").optGet "login") (.str "unknown")
      pure (message, externalId, userId)
    else if commits.lengthPos then do
      let msgs ←
        match commits with
        | .arr xs => getCommitMessages xs
        | _ => throw "TypeError"
      let message := "Push: " ++ jsJoin "\n\n" msgs
      let fullName ← repository.getp "full_name"
      let externalId := "push_" ++ (fullName.jsToString ++ ("_"
          ++ ((payload.optGet "after").jsToString ++ ("_" ++ action.jsToString))))
      let userId := jsOr ((payload.optGet "pusher").optGet "name") (.str "unknown")
      pure (message, externalId, userId)
    else if ref.truthy then do
      let message := "GitHub event: " ++ ref.jsToString
      let fullName ← repository.getp "full_name"
      let externalId := "github_" ++ (fullName.jsToString ++ ("_"
          ++ (toString nowMs ++ ("_" ++ action.jsToString))))
      let userId := jsOr ((payload.optGet "sender").optGet "login") (.str "unknown")
      pure (message, externalId, userId)
    else throw "Unsupported GitHub webhook event type"
  let (message, externalId, userId) := fields
  let instId := installation.optGet "id"
  let wsid :=
    match instId with
    | .undefined => Json.undefined
    | .null => Json.undefined
    | v => Json.str v.jsToString
  return { source := "github", external_id := .str externalId, user_id := userId,
           workspace_id := jsOr wsid .null, message := .str message }

/-- Shallow embedding of `mapPayload` (map_payload.ts, lines 19–48).
`parsed` is the result of `JSON.parse(body)`: `none` when the body is not
valid JSON, in which case the code throws 'Invalid JSON payload'. -/
def mapPayload (dateValid : Json → Bool) (source : String) (parsed : Option Json)
    (nowMs : Nat) (rand : String) : Except String StandardWebhookPayload :=
  match parsed with
  | none => .error "Invalid JSON payload"
  | some payload =>
    match jsToLowerCase source with
    | "poe" => mapPoePayload payload nowMs rand
    | "manus" => mapManusPayload payload nowMs rand
    | "slack" => mapSlackPayload dateValid payload
    | "github" => mapGitHubPayload payload nowMs
    | _ => .error ("Unsupported source: " ++ source)

/-- The response observable when payload mapping throws: `handleWebhook`
calls `mapPayload` with no local catch, so the error reaches the single
top-level boundary and becomes `handleError`'s envelope.  `none` means
mapping succeeded and the payload is forwarded. -/
def mapStageResponse (dateValid : Json → Bool) (source : String) (parsed : Option Json)
    (nowMs : Nat) (rand : String) (traceId : String) : Option GwResponse :=
  match mapPayload dateValid source parsed nowMs rand with
  | .error _ => some (handleErrorResponse traceId)
  | .ok _ => none

theorem exceptBind_ok {ε α β : Type} (a : α) (f : α → Except ε β) :
    (Except.ok a >>= f) = f a := rfl

theorem exceptBind_error {ε α β : Type} (e : ε) (f : α → Except ε β) :
    ((Except.error e : Except ε α) >>= f) = .error e := rfl

theorem exceptPure_bind {ε α β : Type} (a : α) (f : α → Except ε β) :
    ((pure a : Except ε α) >>= f) = f a := rfl

theorem exceptThrow_eq {ε α : Type} (e : ε) : (throw e : Except ε α) = .error e := rfl

theorem exceptMap_ok {ε α β : Type} (a : α) (f : α → β) :
    (f <$> (Except.ok a : Except ε α)) = .ok (f a) := rfl

theorem exceptMap_error {ε α β : Type} (e : ε) (f : α → β) :
    (f <$> (Except.error e : Except ε α)) = .error e := rfl

theorem Json.getp_of_isObj (p : Json) (k : String) (h : p.isObj = true) :
    p.getp k = .ok (p.optGet k) := by
  cases p <;> simp_all [Json.isObj, Json.getp, Json.optGet]

theorem Json.getp_of_not_isNullish (j : Json) (k : String) (h : j.isNullish = false) :
    j.getp k = .ok (j.optGet k) := by
  cases j <;> simp_all [Json.isNullish, Json.getp, Json.optGet]

theorem Json.getp_of_isNullish (j : Json) (k : String) (h : j.isNullish = true) :
    j.getp k = .error "TypeError" := by
  cases j <;> simp_all [Json.isNullish, Json.getp]

theorem Json.truthy_of_isObj (j : Json) (h : j.isObj = true) : j.truthy = true := by
  cases j <;> simp_all [Json.isObj, Json.truthy]

theorem nonEmptyStr_iff (j : Json) :
    nonEmptyStr j = true ↔ ∃ s, j = .str s ∧ s ≠ "" := by
  cases j <;> simp [nonEmptyStr]

theorem Json.truthy_of_nonEmptyStr (j : Json) (h : nonEmptyStr j = true) :
    j.truthy = true := by
  cases j <;> simp_all [nonEmptyStr, Json.truthy]

theorem string_append_ne_empty_right (a b : String) (h : b ≠ "") : a ++ b ≠ "" := by
  intro hab
  apply h
  have hd : (a ++ b).data = a.data ++ b.data := String.data_append a b
  rw [hab] at hd
  have : a.data ++ b.data = [] := hd.symm
  exact congrArg String.mk (List.append_eq_nil.mp this).2

theorem string_append_ne_empty_left (a b : String) (h : a ≠ "") : a ++ b ≠ "" := by
  intro hab
  apply h
  have hd : (a ++ b).data = a.data ++ b.data := String.data_append a b
  rw [hab] at hd
  have : a.data ++ b.data = [] := hd.symm
  exact congrArg String.mk (List.append_eq_nil.mp this).1

theorem generateExternalId_ne_empty (source : String) (nowMs : Nat) (rand : String)
    (h : source ≠ "") : generateExternalId source nowMs rand ≠ "" := by
  unfold generateExternalId
  apply string_append_ne_empty_left
  apply string_append_ne_empty_left
  apply string_append_ne_empty_left
  exact string_append_ne_empty_left _ _ h

/-- The value may appear as an external-id or user-id candidate in a
well-formed body: a string (an empty one is falsy and is passed over by
`||`), or an absent/null field. -/
def strOrAbsent : Json → Bool
  | .str _ => true
  | .undefined => true
  | .null => true
  | _ => false

theorem jsOr_nonEmpty (a b : Json) (ha : strOrAbsent a = true)
    (hb : nonEmptyStr b = true) : nonEmptyStr (jsOr a b) = true := by
  cases a with
  | str s =>
    by_cases hs : s = ""
    · simp [jsOr, Json.truthy, hs, hb]
    · simp [jsOr, Json.truthy, hs, nonEmptyStr]
  | undefined => simpa [jsOr, Json.truthy] using hb
  | null => simpa [jsOr, Json.truthy] using hb
  | bool b' => simp [strOrAbsent] at ha
  | num n => simp [strOrAbsent] at ha
  | arr xs => simp [strOrAbsent] at ha
  | obj fs => simp [strOrAbsent] at ha

theorem jsOr_nonEmpty_left (a b : Json) (ha : nonEmptyStr a = true) :
    nonEmptyStr (jsOr a b) = true := by
  rw [jsOr, Json.truthy_of_nonEmptyStr a ha]
  simpa using ha

/-- C5 fails on the code in its error-kind part: a malformed-JSON body and
an unknown source are both answered with the generic 500
InternalServerError envelope — the strings "InvalidPayload" and
"UnsupportedSource" appear nowhere in the gateway. -/
theorem invalid_payload_response_counterexample :
    mapStageResponse (fun _ => true) "poe" none 0 "r" "tr_3"
        = some ⟨500, some "InternalServerError", some "tr_3"⟩
    ∧ (mapStageResponse (fun _ => true) "poe" none 0 "r" "tr_3").map GwResponse.errorField
        ≠ some (some "InvalidPayload")
    ∧ mapStageResponse (fun _ => true) "gitlab" (some (Json.obj [])) 0 "r" "tr_3"
        = some ⟨500, some "InternalServerError", some "tr_3"⟩
    ∧ (mapStageResponse (fun _ => true) "gitlab" (some (Json.obj [])) 0 "r" "tr_3").map
        GwResponse.errorField ≠ some (some "UnsupportedSource") := by
  refine ⟨rfl, by decide, rfl, by decide⟩

/-- C5 amended: the mapper distinguishes the failure cases through thrown
error messages — 'Invalid JSON payload' for a malformed body,
'Unsupported source: &lt;source&gt;' for an unknown source, and a per-source
message naming the missing mandatory fields — but the HTTP response in
every one of these cases is the generic 500 InternalServerError envelope,
not InvalidPayload or UnsupportedSource. -/
theorem mapping_error_responses (dateValid : Json → Bool) (source : String)
    (p q : Json) (nowMs : Nat) (rand traceId : String)
    (hobj : p.isObj = true) (hq : p.optGet "query" = q) (hqf : q.truthy = false) :
    (mapPayload dateValid source none nowMs rand = .error "Invalid JSON payload"
      ∧ mapStageResponse dateValid source none nowMs rand traceId
          = some ⟨500, some "InternalServerError", some traceId⟩)
    ∧ (jsToLowerCase source ≠ "poe" → jsToLowerCase source ≠ "manus" →
        jsToLowerCase source ≠ "slack" → jsToLowerCase source ≠ "github" →
        mapPayload dateValid source (some p) nowMs rand
          = .error ("Unsupported source: " ++ source)
        ∧ mapStageResponse dateValid source (some p) nowMs rand traceId
          = some ⟨500, some "InternalServerError", some traceId⟩)
    ∧ (mapPayload dateValid "poe" (some p) nowMs rand
          = .error "Invalid Poe payload: missing query or user_id"
        ∧ mapStageResponse dateValid "poe" (some p) nowMs rand traceId
          = some ⟨500, some "InternalServerError", some traceId⟩) := by
  refine ⟨⟨rfl, rfl⟩, ?_, ?_⟩
  · intro h1 h2 h3 h4
    have hmap : mapPayload dateValid source (some p) nowMs rand
        = .error ("Unsupported source: " ++ source) := by
      simp only [mapPayload]
    refine ⟨hmap, ?_⟩
    simp [mapStageResponse, hmap, handleErrorResponse, handleError]
  · have hmap : mapPayload dateValid "poe" (some p) nowMs rand
        = .error "Invalid Poe payload: missing query or user_id" := by
      have h1 : mapPayload dateValid "poe" (some p) nowMs rand
          = mapPoePayload p nowMs rand := rfl
      rw [h1]
      simp only [mapPoePayload, Json.getp_of_isObj p _ hobj, exceptBind_ok,
        exceptBind_error, hq, hqf, Bool.not_false, Bool.true_or]
      rfl
    refine ⟨hmap, ?_⟩
    simp [mapStageResponse, hmap, handleErrorResponse, handleError]

/-- C5 witness: concrete malformed body, unknown source, and a Poe body
missing its query field. -/
theorem mapping_error_responses_witness :
    mapPayload (fun _ => true) "gitlab" none 0 "r" = .error "Invalid JSON payload"
    ∧ mapPayload (fun _ => true) "gitlab" (some (Json.obj [])) 0 "r"
        = .error "Unsupported source: gitlab"
    ∧ mapPayload (fun _ => true) "poe" (some (Json.obj [])) 0 "r"
        = .error "Invalid Poe payload: missing query or user_id" :=
  ⟨(mapping_error_responses (fun _ => true) "gitlab" (Json.obj []) Json.undefined 0 "r" "t"
      rfl rfl rfl).1.1,
   ((mapping_error_responses (fun _ => true) "gitlab" (Json.obj []) Json.undefined 0 "r" "t"
      rfl rfl rfl).2.1 (by decide) (by decide) (by decide) (by decide)).1,
   (mapping_error_responses (fun _ => true) "gitlab" (Json.obj []) Json.undefined 0 "r" "t"
      rfl rfl rfl).2.2.1⟩

/-- A fixed positive date-validity oracle, the faithful instantiation for
timestamps whose `new Date(...)` formatting succeeds in the real code. -/
def alwaysValidDate : Json → Bool := fun _ => true

/-- The exact input body of the specification's chat-platform scenario —
note it contains no `team_id` field. -/
def slackScenarioBody : Json := Json.obj [("event", Json.obj [
  ("type", Json.str "app_mention"), ("user", Json.str "U1"),
  ("channel", Json.str "C1"), ("ts", Json.str "1690000000.0001"),
  ("text", Json.str "<@BOT> hello")])]

/-- The scenario body extended with the team id that the expected
external id presupposes. -/
def slackScenarioBodyWithTeam : Json := Json.obj [
  ("team_id", Json.str "T1"),
  ("event", Json.obj [
    ("type", Json.str "app_mention"), ("user", Json.str "U1"),
    ("channel", Json.str "C1"), ("ts", Json.str "1690000000.0001"),
    ("text", Json.str "<@BOT> hello")])]

/-- C8 fails on the code for the exact body given: with no `team_id`
field, the template literal renders the team id as "undefined", so
`external_id` is "undefined-C1-1690000000.0001", not
"T1-C1-1690000000.0001". -/
theorem slack_scenario_counterexample :
    (mapSlackPayload alwaysValidDate slackScenarioBody).map
        (fun p => p.external_id.jsToString) = .ok "undefined-C1-1690000000.0001"
    ∧ "undefined-C1-1690000000.0001" ≠ "T1-C1-1690000000.0001" :=
  ⟨rfl, by decide⟩

/-- C8 amended: for the scenario body extended with `"team_id":"T1"`, the
Slack mapper produces source "slack", external_id
"T1-C1-1690000000.0001", user_id "U1" and message "hello" (the bot
mention is stripped and the text trimmed). -/
theorem slack_scenario_mapping (dateValid : Json → Bool)
    (hdate : dateValid (.str "1690000000.0001") = true) :
    (mapSlackPayload dateValid slackScenarioBodyWithTeam).map
        (fun p => (p.source, p.external_id, p.user_id, p.message))
      = .ok ("slack", .str "T1-C1-1690000000.0001", .str "U1", .str "hello") := by
  have e1 : mapSlackPayload dateValid slackScenarioBodyWithTeam
      = if !dateValid (.str "1690000000.0001") then .error "RangeError"
        else .ok { source := "slack", external_id := .str "T1-C1-1690000000.0001",
                   user_id := .str "U1", workspace_id := .str "T1",
                   message := .str "hello" } := rfl
  rw [e1, hdate]
  rfl

/-- C8 amended witness: the concrete oracle accepting the timestamp. -/
theorem slack_scenario_mapping_witness :
    (mapSlackPayload alwaysValidDate slackScenarioBodyWithTeam).map
        (fun p => (p.source, p.external_id, p.user_id, p.message))
      = .ok ("slack", .str "T1-C1-1690000000.0001", .str "U1", .str "hello") :=
  slack_scenario_mapping alwaysValidDate rfl

theorem getCommitMessages_ok (xs : List Json)
    (h : ∀ x ∈ xs, x.isNullish = false) :
    getCommitMessages xs = .ok (xs.map (fun c => c.optGet "message")) := by
  induction xs with
  | nil => rfl
  | cons x rest ih =>
    simp [getCommitMessages, Json.getp_of_not_isNullish x _ (h x (by simp)),
      ih (fun y hy => h y (by simp [hy])), exceptBind_ok]

theorem getCommitMessages_cases (xs : List Json) :
    (∃ vs, getCommitMessages xs = .ok vs)
    ∨ getCommitMessages xs = .error "TypeError" := by
  induction xs with
  | nil => exact .inl ⟨[], rfl⟩
  | cons x rest ih =>
    by_cases hx : x.isNullish = true
    · exact .inr (by
        simp [getCommitMessages, Json.getp_of_isNullish x _ hx, exceptBind_error])
    · have hx' : x.isNullish = false := by
        cases hb : x.isNullish
        · rfl
        · exact absurd hb hx
      rcases ih with ⟨vs, hvs⟩ | herr
      · exact .inl ⟨x.optGet "message" :: vs, by
          simp [getCommitMessages, Json.getp_of_not_isNullish x _ hx', hvs,
            exceptBind_ok]⟩
      · exact .inr (by
          simp [getCommitMessages, Json.getp_of_not_isNullish x _ hx', herr,
            exceptBind_ok, exceptBind_error])

/-- The source-control push scenario body: commits `[{message:"fix bug"}]`
and no pull_request or issue field, together with the repository object
that every branch of the mapper dereferences. -/
def ghPushScenario : Json := Json.obj [
  ("commits", Json.arr [Json.obj [("message", Json.str "fix bug")]]),
  ("repository", Json.obj [("full_name", Json.str "octo/repo")]),
  ("pusher", Json.obj [("name", Json.str "dev")])]

/-- C7: the GitHub mapper selects exactly the first matching shape in the
order pull-request object, issue object, non-empty commit list, ref
event, and raises the unsupported-event error when none match; and the
concrete push body with commits `[{message:"fix bug"}]` and no
pull_request or issue maps to the message "Push: fix bug". -/
theorem github_event_precedence (p : Json) (nowMs : Nat)
    (hobj : p.isObj = true) (hrepo : (p.optGet "repository").isNullish = false) :
    ((p.optGet "pull_request").truthy = true →
      (mapGitHubPayload p nowMs).map StandardWebhookPayload.message
        = .ok (.str ("PR: " ++ (((p.optGet "pull_request").optGet "title").jsToString
            ++ ("\n\n" ++ (jsOr ((p.optGet "pull_request").optGet "body")
                  (.str "")).jsToString)))))
    ∧ ((p.optGet "pull_request").truthy = false →
       (p.optGet "issue").truthy = true →
      (mapGitHubPayload p nowMs).map StandardWebhookPayload.message
        = .ok (.str ("Issue: " ++ (((p.optGet "issue").optGet "title").jsToString
            ++ ("\n\n" ++ (jsOr ((p.optGet "issue").optGet "body")
                  (.str "")).jsToString)))))
    ∧ ((p.optGet "pull_request").truthy = false →
       (p.optGet "issue").truthy = false →
       ∀ c cs, p.optGet "commits" = .arr (c :: cs) →
       (∀ x ∈ c :: cs, x.isNullish = false) →
      (mapGitHubPayload p nowMs).map StandardWebhookPayload.message
        = .ok (.str ("Push: " ++ jsJoin "\n\n"
            ((c :: cs).map (fun x => x.optGet "message")))))
    ∧ ((p.optGet "pull_request").truthy = false →
       (p.optGet "issue").truthy = false →
       (p.optGet "commits").lengthPos = false →
       (p.optGet "ref").truthy = true →
      (mapGitHubPayload p nowMs).map StandardWebhookPayload.message
        = .ok (.str ("GitHub event: " ++ (p.optGet "ref").jsToString)))
    ∧ ((p.optGet "pull_request").truthy = false →
       (p.optGet "issue").truthy = false →
       (p.optGet "commits").lengthPos = false →
       (p.optGet "ref").truthy = false →
      mapGitHubPayload p nowMs = .error "Unsupported GitHub webhook event type")
    ∧ (mapGitHubPayload ghPushScenario 0).map StandardWebhookPayload.message
        = .ok (.str "Push: fix bug") := by
  refine ⟨?_, ?_, ?_, ?_, ?_, rfl⟩
  · intro hpr
    simp [mapGitHubPayload, Json.getp_of_isObj _ _ hobj, exceptBind_ok,
      Json.getp_of_not_isNullish _ _ hrepo, hpr, exceptPure_bind, exceptThrow_eq, exceptMap_ok, exceptMap_error, Except.map]
  · intro hpr hissue
    simp [mapGitHubPayload, Json.getp_of_isObj _ _ hobj, exceptBind_ok,
      Json.getp_of_not_isNullish _ _ hrepo, hpr, hissue, exceptPure_bind, exceptThrow_eq, exceptMap_ok, exceptMap_error, Except.map]
  · intro hpr hissue c cs hc helems
    have hlen : (Json.arr (c :: cs)).lengthPos = true := by simp [Json.lengthPos]
    simp [mapGitHubPayload, Json.getp_of_isObj _ _ hobj, exceptBind_ok,
      Json.getp_of_not_isNullish _ _ hrepo, hpr, hissue, hc, hlen,
      getCommitMessages_ok (c :: cs) helems, exceptPure_bind, exceptThrow_eq, exceptMap_ok, exceptMap_error, Except.map]
  · intro hpr hissue hcommits href
    simp [mapGitHubPayload, Json.getp_of_isObj _ _ hobj, exceptBind_ok,
      Json.getp_of_not_isNullish _ _ hrepo, hpr, hissue, hcommits, href,
      exceptPure_bind, exceptThrow_eq, exceptMap_ok, exceptMap_error, Except.map]
  · intro hpr hissue hcommits href
    simp [mapGitHubPayload, Json.getp_of_isObj _ _ hobj, exceptBind_ok,
      hpr, hissue, hcommits, href, exceptBind_error, exceptThrow_eq, exceptMap_error,
      Except.map]

/-- C7 witness: the push scenario instantiating the commit-list branch. -/
theorem github_event_precedence_witness :
    (mapGitHubPayload ghPushScenario 0).map StandardWebhookPayload.message
      = .ok (.str ("Push: " ++ jsJoin "\n\n"
          (([Json.obj [("message", Json.str "fix bug")]]).map
            (fun x => x.optGet "message")))) :=
  (github_event_precedence ghPushScenario 0 rfl rfl).2.2.1 rfl rfl
    (Json.obj [("message", Json.str "fix bug")]) [] rfl (by decide)

/-- C10: every parsed GitHub body carrying a pull_request, an issue, or a
non-empty commits list but no repository field makes the mapper
dereference `repository.full_name` without a guard, so mapping fails with
a TypeError rather than a payload or a named mapping error. -/
theorem github_missing_repository_typeerror (p : Json) (nowMs : Nat)
    (hobj : p.isObj = true) (hrepo : (p.optGet "repository").isNullish = true) :
    ((p.optGet "pull_request").truthy = true →
      mapGitHubPayload p nowMs = .error "TypeError")
    ∧ ((p.optGet "pull_request").truthy = false →
       (p.optGet "issue").truthy = true →
      mapGitHubPayload p nowMs = .error "TypeError")
    ∧ ((p.optGet "pull_request").truthy = false →
       (p.optGet "issue").truthy = false →
       (p.optGet "commits").lengthPos = true →
      mapGitHubPayload p nowMs = .error "TypeError") := by
  refine ⟨?_, ?_, ?_⟩
  · intro hpr
    simp [mapGitHubPayload, Json.getp_of_isObj _ _ hobj, exceptBind_ok,
      Json.getp_of_isNullish _ _ hrepo, hpr, exceptBind_error, exceptThrow_eq,
      exceptMap_ok, exceptMap_error]
  · intro hpr hissue
    simp [mapGitHubPayload, Json.getp_of_isObj _ _ hobj, exceptBind_ok,
      Json.getp_of_isNullish _ _ hrepo, hpr, hissue, exceptBind_error, exceptThrow_eq,
      exceptMap_ok, exceptMap_error]
  · intro hpr hissue hlen
    cases hc : p.optGet "commits" with
    | arr xs =>
      rcases getCommitMessages_cases xs with ⟨vs, hvs⟩ | herr
      · simp [mapGitHubPayload, Json.getp_of_isObj _ _ hobj, exceptBind_ok,
          Json.getp_of_isNullish _ _ hrepo, hpr, hissue, hc, hc ▸ hlen, hvs,
          exceptBind_error, exceptThrow_eq, exceptMap_ok, exceptMap_error, Except.map]
      · simp [mapGitHubPayload, Json.getp_of_isObj _ _ hobj, exceptBind_ok,
          hpr, hissue, hc, hc ▸ hlen, herr, exceptBind_error, exceptThrow_eq,
          exceptMap_ok, exceptMap_error]
    | str s =>
      simp [mapGitHubPayload, Json.getp_of_isObj _ _ hobj, exceptBind_ok,
        hpr, hissue, hc, hc ▸ hlen, exceptBind_error, exceptThrow_eq,
        exceptMap_ok, exceptMap_error]
    | undefined => rw [hc] at hlen; simp [Json.lengthPos] at hlen
    | null => rw [hc] at hlen; simp [Json.lengthPos] at hlen
    | bool b => rw [hc] at hlen; simp [Json.lengthPos] at hlen
    | num n => rw [hc] at hlen; simp [Json.lengthPos] at hlen
    | obj fs => rw [hc] at hlen; simp [Json.lengthPos] at hlen

/-- C10 witness: a pull-request body with no repository field. -/
theorem github_missing_repository_typeerror_witness :
    mapGitHubPayload (Json.obj [("pull_request", Json.obj [])]) 0
      = .error "TypeError" :=
  (github_missing_repository_typeerror (Json.obj [("pull_request", Json.obj [])]) 0
    rfl rfl).1 rfl

theorem nonEmptyStr_str_of_ne (s : String) (h : s ≠ "") :
    nonEmptyStr (.str s) = true := by
  simp [nonEmptyStr, h]

/-- Structural well-formedness of a Poe body, written from the fields
`mapPoePayload` reads: the mandatory query and user id are non-empty
strings, and the optional id candidates are strings or absent. -/
def PoeWF (p : Json) : Bool :=
  p.isObj
  && nonEmptyStr (p.optGet "query")
  && nonEmptyStr (p.optGet "user_id")
  && strOrAbsent (p.optGet "message_id")
  && strOrAbsent (p.optGet "query_id")

/-- Structural well-formedness of a Manus body: content and request are
strings or absent with at least one non-empty, and the optional id and
user-id candidates are strings or absent. -/
def ManusWF (p : Json) : Bool :=
  p.isObj
  && strOrAbsent (p.optGet "content")
  && strOrAbsent (p.optGet "request")
  && (nonEmptyStr (p.optGet "content") || nonEmptyStr (p.optGet "request"))
  && strOrAbsent (p.optGet "request_id")
  && strOrAbsent (p.optGet "id")
  && strOrAbsent (p.optGet "user_id")

/-- Structural well-formedness of a Slack body: an event object with a
non-empty user, a string text whose normalized form (mention stripping
and trimming under an app-mention event) is non-empty, and a timestamp
whose date formatting succeeds. -/
def SlackWF (dateValid : Json → Bool) (p : Json) : Bool :=
  p.isObj
  && (p.optGet "event").isObj
  && nonEmptyStr ((p.optGet "event").optGet "user")
  && (match jsOr ((p.optGet "event").optGet "text") (.str "") with
      | .str t =>
        if (match (p.optGet "event").optGet "type" with
            | .str ty => ty == "app_mention"
            | _ => false)
        then jsTrim (stripSlackMentions t) != ""
        else t != ""
      | _ => false)
  && dateValid ((p.optGet "event").optGet "ts")

/-- Structural well-formedness of a GitHub body: the repository object is
present, and for whichever event shape fires first the user-id candidate
is a string or absent (for a push, the commits are a list of non-nullish
objects). -/
def GitHubWF (p : Json) : Bool :=
  p.isObj
  && !(p.optGet "repository").isNullish
  && (if (p.optGet "pull_request").truthy then
        strOrAbsent (((p.optGet "pull_request").optGet "user").optGet "login")
      else if (p.optGet "issue").truthy then
        strOrAbsent (((p.optGet "issue").optGet "user").optGet "login")
      else if (p.optGet "commits").lengthPos then
        (match p.optGet "commits" with
         | .arr xs => xs.all (fun x => !x.isNullish)
         | _ => false)
        && strOrAbsent ((p.optGet "pusher").optGet "name")
      else if (p.optGet "ref").truthy then
        strOrAbsent ((p.optGet "sender").optGet "login")
      else false)

theorem poe_wf_run (dateValid : Json → Bool) (p : Json) (nowMs : Nat) (rand : String)
    (h : PoeWF p = true) :
    ∃ pay, mapPayload dateValid "poe" (some p) nowMs rand = .ok pay
      ∧ pay.source ∈ (["poe", "manus", "slack", "github"] : List String)
      ∧ pay.source = "poe"
      ∧ nonEmptyStr pay.external_id = true
      ∧ nonEmptyStr pay.user_id = true
      ∧ nonEmptyStr pay.message = true := by
  simp only [PoeWF, Bool.and_eq_true] at h
  obtain ⟨⟨⟨⟨hobj, hq⟩, hu⟩, hmid⟩, hqid⟩ := h
  have hqt := Json.truthy_of_nonEmptyStr _ hq
  have hut := Json.truthy_of_nonEmptyStr _ hu
  have hrun : mapPayload dateValid "poe" (some p) nowMs rand = .ok
      { source := "poe",
        external_id := jsOr (p.optGet "message_id") (jsOr (p.optGet "query_id")
          (.str (generateExternalId "poe" nowMs rand))),
        user_id := p.optGet "user_id",
        workspace_id := jsOr (p.optGet "workspace_id") Json.null,
        message := jsOr (p.optGet "query") (jsOr (p.optGet "message") (.str "")) } := by
    have h0 : mapPayload dateValid "poe" (some p) nowMs rand
        = mapPoePayload p nowMs rand := rfl
    rw [h0]
    simp [mapPoePayload, Json.getp_of_isObj _ _ hobj, exceptBind_ok, exceptPure_bind,
      hqt, hut]
  refine ⟨_, hrun, by simp, rfl, ?_, hu, ?_⟩
  · exact jsOr_nonEmpty _ _ hmid (jsOr_nonEmpty _ _ hqid
      (nonEmptyStr_str_of_ne _ (generateExternalId_ne_empty "poe" nowMs rand (by decide))))
  · exact jsOr_nonEmpty_left _ _ hq

theorem manus_wf_run (dateValid : Json → Bool) (p : Json) (nowMs : Nat) (rand : String)
    (h : ManusWF p = true) :
    ∃ pay, mapPayload dateValid "manus" (some p) nowMs rand = .ok pay
      ∧ pay.source ∈ (["poe", "manus", "slack", "github"] : List String)
      ∧ pay.source = "manus"
      ∧ nonEmptyStr pay.external_id = true
      ∧ nonEmptyStr pay.user_id = true
      ∧ nonEmptyStr pay.message = true := by
  simp only [ManusWF, Bool.and_eq_true] at h
  obtain ⟨⟨⟨⟨⟨⟨hobj, hcsa⟩, hrsa⟩, hne⟩, hrid⟩, hid⟩, huid⟩ := h
  have hne' : nonEmptyStr (p.optGet "content") = true
      ∨ nonEmptyStr (p.optGet "request") = true := by
    simpa using hne
  have hrun : mapPayload dateValid "manus" (some p) nowMs rand = .ok
      { source := "manus",
        external_id := jsOr (p.optGet "request_id") (jsOr (p.optGet "id")
          (.str (generateExternalId "manus" nowMs rand))),
        user_id := jsOr (p.optGet "user_id") (.str "unknown"),
        workspace_id := jsOr (p.optGet "workspace_id") Json.null,
        message := jsOr (p.optGet "content") (jsOr (p.optGet "request") (.str "")) } := by
    have h0 : mapPayload dateValid "manus" (some p) nowMs rand
        = mapManusPayload p nowMs rand := rfl
    rw [h0]
    rcases hne' with hcne | hrne
    · simp [mapManusPayload, Json.getp_of_isObj _ _ hobj, exceptBind_ok,
        exceptPure_bind, Json.truthy_of_nonEmptyStr _ hcne]
    · simp [mapManusPayload, Json.getp_of_isObj _ _ hobj, exceptBind_ok,
        exceptPure_bind, Json.truthy_of_nonEmptyStr _ hrne]
  refine ⟨_, hrun, by simp, rfl, ?_, ?_, ?_⟩
  · exact jsOr_nonEmpty _ _ hrid (jsOr_nonEmpty _ _ hid
      (nonEmptyStr_str_of_ne _ (generateExternalId_ne_empty "manus" nowMs rand (by decide))))
  · exact jsOr_nonEmpty _ _ huid (nonEmptyStr_str_of_ne "unknown" (by decide))
  · rcases hne' with hcne | hrne
    · exact jsOr_nonEmpty_left _ _ hcne
    · exact jsOr_nonEmpty _ _ hcsa (jsOr_nonEmpty_left _ _ hrne)

theorem truthy_str_of_ne (s : String) (h : s ≠ "") : (Json.str s).truthy = true := by
  simp [Json.truthy, h]

theorem slack_external_id_ne_empty (a b c : String) :
    a ++ "-" ++ b ++ "-" ++ c ≠ "" := by
  apply string_append_ne_empty_left
  apply string_append_ne_empty_right
  decide

theorem slack_wf_run (dateValid : Json → Bool) (p : Json) (nowMs : Nat) (rand : String)
    (h : SlackWF dateValid p = true) :
    ∃ pay, mapPayload dateValid "slack" (some p) nowMs rand = .ok pay
      ∧ pay.source ∈ (["poe", "manus", "slack", "github"] : List String)
      ∧ pay.source = "slack"
      ∧ nonEmptyStr pay.external_id = true
      ∧ nonEmptyStr pay.user_id = true
      ∧ nonEmptyStr pay.message = true := by
  simp only [SlackWF, Bool.and_eq_true] at h
  obtain ⟨⟨⟨⟨hobj, heobj⟩, huser⟩, htext⟩, hdate⟩ := h
  have het := Json.truthy_of_isObj _ heobj
  have h0 : mapPayload dateValid "slack" (some p) nowMs rand
      = mapSlackPayload dateValid p := rfl
  cases hm0 : jsOr ((p.optGet "event").optGet "text") (.str "") with
  | str t =>
    rw [hm0] at htext
    cases hb : (match (p.optGet "event").optGet "type" with
        | .str ty => ty == "app_mention"
        | _ => false) with
    | true =>
      rw [hb] at htext
      simp only [if_true] at htext
      have hmne : jsTrim (stripSlackMentions t) ≠ "" := by
        simpa using htext
      have hrun : mapPayload dateValid "slack" (some p) nowMs rand = .ok
          { source := "slack",
            external_id := .str ((p.optGet "team_id").jsToString ++ "-"
              ++ ((p.optGet "event").optGet "channel").jsToString ++ "-"
              ++ ((p.optGet "event").optGet "ts").jsToString),
            user_id := (p.optGet "event").optGet "user",
            workspace_id := p.optGet "team_id",
            message := .str (jsTrim (stripSlackMentions t)) } := by
        rw [h0]
        simp [mapSlackPayload, Json.getp_of_isObj _ _ hobj,
          Json.getp_of_isObj _ _ heobj, exceptBind_ok, exceptPure_bind,
          exceptThrow_eq, het, hm0, hb, hdate, truthy_str_of_ne _ hmne]
      refine ⟨_, hrun, by simp, rfl, ?_, huser, ?_⟩
      · exact nonEmptyStr_str_of_ne _ (slack_external_id_ne_empty _ _ _)
      · exact nonEmptyStr_str_of_ne _ hmne
    | false =>
      rw [hb] at htext
      simp only [Bool.false_eq_true, if_false] at htext
      have htne : t ≠ "" := by simpa using htext
      have hrun : mapPayload dateValid "slack" (some p) nowMs rand = .ok
          { source := "slack",
            external_id := .str ((p.optGet "team_id").jsToString ++ "-"
              ++ ((p.optGet "event").optGet "channel").jsToString ++ "-"
              ++ ((p.optGet "event").optGet "ts").jsToString),
            user_id := (p.optGet "event").optGet "user",
            workspace_id := p.optGet "team_id",
            message := .str t } := by
        rw [h0]
        simp [mapSlackPayload, Json.getp_of_isObj _ _ hobj,
          Json.getp_of_isObj _ _ heobj, exceptBind_ok, exceptPure_bind,
          exceptThrow_eq, het, hm0, hb, hdate, truthy_str_of_ne _ htne]
      refine ⟨_, hrun, by simp, rfl, ?_, huser, ?_⟩
      · exact nonEmptyStr_str_of_ne _ (slack_external_id_ne_empty _ _ _)
      · exact nonEmptyStr_str_of_ne _ htne
  | undefined => rw [hm0] at htext; simp at htext
  | null => rw [hm0] at htext; simp at htext
  | bool b => rw [hm0] at htext; simp at htext
  | num n => rw [hm0] at htext; simp at htext
  | arr xs => rw [hm0] at htext; simp at htext
  | obj fs => rw [hm0] at htext; simp at htext

theorem github_wf_run (dateValid : Json → Bool) (p : Json) (nowMs : Nat) (rand : String)
    (h : GitHubWF p = true) :
    ∃ pay, mapPayload dateValid "github" (some p) nowMs rand = .ok pay
      ∧ pay.source ∈ (["poe", "manus", "slack", "github"] : List String)
      ∧ pay.source = "github"
      ∧ nonEmptyStr pay.external_id = true
      ∧ nonEmptyStr pay.user_id = true
      ∧ nonEmptyStr pay.message = true := by
  simp only [GitHubWF, Bool.and_eq_true] at h
  obtain ⟨⟨hobj, hrepo'⟩, hbranch⟩ := h
  have hrepo : (p.optGet "repository").isNullish = false := by
    cases hnl : (p.optGet "repository").isNullish
    · rfl
    · rw [hnl] at hrepo'; exact absurd hrepo' (by decide)
  have h0 : mapPayload dateValid "github" (some p) nowMs rand
      = mapGitHubPayload p nowMs := rfl
  cases hpr : (p.optGet "pull_request").truthy with
  | true =>
    rw [hpr] at hbranch
    simp only [if_true] at hbranch
    have hrun : mapPayload dateValid "github" (some p) nowMs rand = .ok
        { source := "github",
          external_id := .str ("pr_" ++ (((p.optGet "repository").optGet "full_name").jsToString
            ++ ("_" ++ (((p.optGet "pull_request").optGet "number").jsToString
            ++ ("_" ++ (p.optGet "action").jsToString))))),
          user_id := jsOr (((p.optGet "pull_request").optGet "user").optGet "login")
            (.str "unknown"),
          workspace_id := jsOr (match (p.optGet "installation").optGet "id" with
            | Json.undefined => Json.undefined
            | Json.null => Json.undefined
            | v => Json.str v.jsToString) Json.null,
          message := .str ("PR: " ++ (((p.optGet "pull_request").optGet "title").jsToString
            ++ ("\n\n" ++ (jsOr ((p.optGet "pull_request").optGet "body")
                  (.str "")).jsToString))) } := by
      rw [h0]
      simp [mapGitHubPayload, Json.getp_of_isObj _ _ hobj, exceptBind_ok,
        exceptPure_bind, Json.getp_of_not_isNullish _ _ hrepo, hpr]
    refine ⟨_, hrun, by simp, rfl, ?_, ?_, ?_⟩
    · exact nonEmptyStr_str_of_ne _ (string_append_ne_empty_left "pr_" _ (by decide))
    · exact jsOr_nonEmpty _ _ hbranch (nonEmptyStr_str_of_ne "unknown" (by decide))
    · exact nonEmptyStr_str_of_ne _ (string_append_ne_empty_left "PR: " _ (by decide))
  | false =>
    rw [hpr] at hbranch
    simp only [Bool.false_eq_true, if_false] at hbranch
    cases hissue : (p.optGet "issue").truthy with
    | true =>
      rw [hissue] at hbranch
      simp only [if_true] at hbranch
      have hrun : mapPayload dateValid "github" (some p) nowMs rand = .ok
          { source := "github",
            external_id := .str ("issue_" ++ (((p.optGet "repository").optGet "full_name").jsToString
              ++ ("_" ++ (((p.optGet "issue").optGet "number").jsToString
              ++ ("_" ++ (p.optGet "action").jsToString))))),
            user_id := jsOr (((p.optGet "issue").optGet "user").optGet "login")
              (.str "unknown"),
            workspace_id := jsOr (match (p.optGet "installation").optGet "id" with
              | Json.undefined => Json.undefined
              | Json.null => Json.undefined
              | v => Json.str v.jsToString) Json.null,
            message := .str ("Issue: " ++ (((p.optGet "issue").optGet "title").jsToString
              ++ ("\n\n" ++ (jsOr ((p.optGet "issue").optGet "body")
                    (.str "")).jsToString))) } := by
        rw [h0]
        simp [mapGitHubPayload, Json.getp_of_isObj _ _ hobj, exceptBind_ok,
          exceptPure_bind, Json.getp_of_not_isNullish _ _ hrepo, hpr, hissue]
      refine ⟨_, hrun, by simp, rfl, ?_, ?_, ?_⟩
      · exact nonEmptyStr_str_of_ne _ (string_append_ne_empty_left "issue_" _ (by decide))
      · exact jsOr_nonEmpty _ _ hbranch (nonEmptyStr_str_of_ne "unknown" (by decide))
      · exact nonEmptyStr_str_of_ne _ (string_append_ne_empty_left "Issue: " _ (by decide))
    | false =>
      rw [hissue] at hbranch
      simp only [Bool.false_eq_true, if_false] at hbranch
      cases hlen : (p.optGet "commits").lengthPos with
      | true =>
        rw [hlen] at hbranch
        simp only [if_true, Bool.and_eq_true] at hbranch
        obtain ⟨hcommits, hpusher⟩ := hbranch
        cases hc : p.optGet "commits" with
        | arr xs =>
          rw [hc] at hcommits
          have helems : ∀ x ∈ xs, x.isNullish = false := by
            intro x hx
            have hx' := (List.all_eq_true.mp hcommits) x hx
            cases hnl : x.isNullish
            · rfl
            · rw [hnl] at hx'; exact absurd hx' (by decide)
          have hrun : mapPayload dateValid "github" (some p) nowMs rand = .ok
              { source := "github",
                external_id := .str ("push_" ++ (((p.optGet "repository").optGet "full_name").jsToString
                  ++ ("_" ++ ((p.optGet "after").jsToString
                  ++ ("_" ++ (p.optGet "action").jsToString))))),
                user_id := jsOr ((p.optGet "pusher").optGet "name") (.str "unknown"),
                workspace_id := jsOr (match (p.optGet "installation").optGet "id" with
                  | Json.undefined => Json.undefined
                  | Json.null => Json.undefined
                  | v => Json.str v.jsToString) Json.null,
                message := .str ("Push: " ++ jsJoin "\n\n"
                  (xs.map (fun c => c.optGet "message"))) } := by
            rw [h0]
            simp [mapGitHubPayload, Json.getp_of_isObj _ _ hobj, exceptBind_ok,
              exceptPure_bind, Json.getp_of_not_isNullish _ _ hrepo, hpr, hissue,
              hc, hc ▸ hlen, getCommitMessages_ok xs helems]
          refine ⟨_, hrun, by simp, rfl, ?_, ?_, ?_⟩
          · exact nonEmptyStr_str_of_ne _ (string_append_ne_empty_left "push_" _ (by decide))
          · exact jsOr_nonEmpty _ _ hpusher (nonEmptyStr_str_of_ne "unknown" (by decide))
          · exact nonEmptyStr_str_of_ne _ (string_append_ne_empty_left "Push: " _ (by decide))
        | undefined => rw [hc] at hcommits; simp at hcommits
        | null => rw [hc] at hcommits; simp at hcommits
        | bool b => rw [hc] at hcommits; simp at hcommits
        | num n => rw [hc] at hcommits; simp at hcommits
        | str s => rw [hc] at hcommits; simp at hcommits
        | obj fs => rw [hc] at hcommits; simp at hcommits
      | false =>
        rw [hlen] at hbranch
        simp only [Bool.false_eq_true, if_false] at hbranch
        cases href : (p.optGet "ref").truthy with
        | true =>
          rw [href] at hbranch
          simp only [if_true] at hbranch
          have hrun : mapPayload dateValid "github" (some p) nowMs rand = .ok
              { source := "github",
                external_id := .str ("github_" ++ (((p.optGet "repository").optGet "full_name").jsToString
                  ++ ("_" ++ (toString nowMs
                  ++ ("_" ++ (p.optGet "action").jsToString))))),
                user_id := jsOr ((p.optGet "sender").optGet "login") (.str "unknown"),
                workspace_id := jsOr (match (p.optGet "installation").optGet "id" with
                  | Json.undefined => Json.undefined
                  | Json.null => Json.undefined
                  | v => Json.str v.jsToString) Json.null,
                message := .str ("GitHub event: " ++ (p.optGet "ref").jsToString) } := by
            rw [h0]
            simp [mapGitHubPayload, Json.getp_of_isObj _ _ hobj, exceptBind_ok,
              exceptPure_bind, Json.getp_of_not_isNullish _ _ hrepo, hpr, hissue,
              hlen, href]
          refine ⟨_, hrun, by simp, rfl, ?_, ?_, ?_⟩
          · exact nonEmptyStr_str_of_ne _ (string_append_ne_empty_left "github_" _ (by decide))
          · exact jsOr_nonEmpty _ _ hbranch (nonEmptyStr_str_of_ne "unknown" (by decide))
          · exact nonEmptyStr_str_of_ne _
              (string_append_ne_empty_left "GitHub event: " _ (by decide))
        | false =>
          rw [href] at hbranch
          simp at hbranch

/-- C4: for every supported source and every well-formed body (the
structural conditions each mapper relies on), the produced payload has a
non-empty external_id, a non-empty user_id and a non-empty message, and
its source is one of the recognized set. -/
theorem mapped_payload_nonempty_fields (dateValid : Json → Bool) (p : Json)
    (nowMs : Nat) (rand : String) :
    (PoeWF p = true →
      ∃ pay, mapPayload dateValid "poe" (some p) nowMs rand = .ok pay
        ∧ pay.source ∈ (["poe", "manus", "slack", "github"] : List String)
        ∧ pay.source = "poe"
        ∧ nonEmptyStr pay.external_id = true ∧ nonEmptyStr pay.user_id = true
        ∧ nonEmptyStr pay.message = true)
    ∧ (ManusWF p = true →
      ∃ pay, mapPayload dateValid "manus" (some p) nowMs rand = .ok pay
        ∧ pay.source ∈ (["poe", "manus", "slack", "github"] : List String)
        ∧ pay.source = "manus"
        ∧ nonEmptyStr pay.external_id = true ∧ nonEmptyStr pay.user_id = true
        ∧ nonEmptyStr pay.message = true)
    ∧ (SlackWF dateValid p = true →
      ∃ pay, mapPayload dateValid "slack" (some p) nowMs rand = .ok pay
        ∧ pay.source ∈ (["poe", "manus", "slack", "github"] : List String)
        ∧ pay.source = "slack"
        ∧ nonEmptyStr pay.external_id = true ∧ nonEmptyStr pay.user_id = true
        ∧ nonEmptyStr pay.message = true)
    ∧ (GitHubWF p = true →
      ∃ pay, mapPayload dateValid "github" (some p) nowMs rand = .ok pay
        ∧ pay.source ∈ (["poe", "manus", "slack", "github"] : List String)
        ∧ pay.source = "github"
        ∧ nonEmptyStr pay.external_id = true ∧ nonEmptyStr pay.user_id = true
        ∧ nonEmptyStr pay.message = true) :=
  ⟨poe_wf_run dateValid p nowMs rand, manus_wf_run dateValid p nowMs rand,
   slack_wf_run dateValid p nowMs rand, github_wf_run dateValid p nowMs rand⟩

/-- A single body well-formed for all four sources at once, used by the
C4 witness. -/
def wellFormedExampleBody : Json := Json.obj [
  ("query", Json.str "hi"), ("user_id", Json.str "u1"),
  ("content", Json.str "doc"), ("team_id", Json.str "T1"),
  ("event", Json.obj [("type", Json.str "message"), ("user", Json.str "U1"),
    ("channel", Json.str "C1"), ("ts", Json.str "1690000000.0001"),
    ("text", Json.str "hello")]),
  ("repository", Json.obj [("full_name", Json.str "o/r")]),
  ("commits", Json.arr [Json.obj [("message", Json.str "m1")]]),
  ("pusher", Json.obj [("name", Json.str "dev")])]

/-- C4 witness: one concrete body well-formed for all four sources. -/
theorem mapped_payload_nonempty_fields_witness :
    (∃ pay, mapPayload alwaysValidDate "poe" (some wellFormedExampleBody) 0 "r" = .ok pay
      ∧ pay.source ∈ (["poe", "manus", "slack", "github"] : List String)
      ∧ pay.source = "poe"
      ∧ nonEmptyStr pay.external_id = true ∧ nonEmptyStr pay.user_id = true
      ∧ nonEmptyStr pay.message = true)
    ∧ (∃ pay, mapPayload alwaysValidDate "manus" (some wellFormedExampleBody) 0 "r" = .ok pay
      ∧ pay.source ∈ (["poe", "manus", "slack", "github"] : List String)
      ∧ pay.source = "manus"
      ∧ nonEmptyStr pay.external_id = true ∧ nonEmptyStr pay.user_id = true
      ∧ nonEmptyStr pay.message = true)
    ∧ (∃ pay, mapPayload alwaysValidDate "slack" (some wellFormedExampleBody) 0 "r" = .ok pay
      ∧ pay.source ∈ (["poe", "manus", "slack", "github"] : List String)
      ∧ pay.source = "slack"
      ∧ nonEmptyStr pay.external_id = true ∧ nonEmptyStr pay.user_id = true
      ∧ nonEmptyStr pay.message = true)
    ∧ (∃ pay, mapPayload alwaysValidDate "github" (some wellFormedExampleBody) 0 "r" = .ok pay
      ∧ pay.source ∈ (["poe", "manus", "slack", "github"] : List String)
      ∧ pay.source = "github"
      ∧ nonEmptyStr pay.external_id = true ∧ nonEmptyStr pay.user_id = true
      ∧ nonEmptyStr pay.message = true) :=
  ⟨(mapped_payload_nonempty_fields alwaysValidDate wellFormedExampleBody 0 "r").1
      (by decide),
   (mapped_payload_nonempty_fields alwaysValidDate wellFormedExampleBody 0 "r").2.1
      (by decide),
   (mapped_payload_nonempty_fields alwaysValidDate wellFormedExampleBody 0 "r").2.2.1
      (by decide),
   (mapped_payload_nonempty_fields alwaysValidDate wellFormedExampleBody 0 "r").2.2.2
      (by decide)⟩

end Bridge
